import Mathlib

/-!
Verification of the multi-source product resolution pipeline of the
Prompt2Insight repository (frontend agents/hooks/components), as a shallow
embedding in Lean 4.

The embedding follows the source files:
  * `agents/useIntentRouter.ts` (the Google-first revision): `routeUserIntent`
  * `hooks/useGoogleSearch.ts`: `searchProducts`
  * `hooks/useGeminiAgent.ts`: `fetchGeminiSuggestions`, `getMockProducts`
  * `hooks/useInstructionAgent.ts` (the logging revision of `useScraperAgent`):
    `fetchScrapedProducts`
  * `agents/routerAgent.ts`: `buildScrapeInstructions`
  * `components/product-card.tsx`: `estimatePrice` and the field-resolution chain
  * the `ProductChart` component: the numeric price chart data

External I/O (HTTP responses) is modelled by explicit outcome values handed to
each adapter; a thrown JS exception is modelled by `Except.error`, and a
function that never throws is modelled by a total function.
-/

/-- Models the JavaScript expression `x || d` for a string-valued field that
may be absent (`none`) or present: an empty string is falsy, so it also
falls through to the default. -/
def orElseStr (x : Option String) (d : String) : String :=
  match x with
  | some s => if s = "" then d else s
  | none => d

/-- `charsPrefixOf pat l` is true when `pat` is a prefix of `l`. -/
def charsPrefixOf : List Char → List Char → Bool
  | [], _ => true
  | _ :: _, [] => false
  | a :: as, b :: bs => a == b && charsPrefixOf as bs

/-- `charsIncl pat l` is true when `pat` occurs contiguously inside `l`. -/
def charsIncl (pat : List Char) : List Char → Bool
  | [] => pat.isEmpty
  | c :: rest => charsPrefixOf pat (c :: rest) || charsIncl pat rest

/-- Models JavaScript `s.includes(pat)`. -/
def strIncludes (s pat : String) : Bool :=
  charsIncl pat.toList s.toList

/-- Inserts a comma before the digit at every position that is a positive
multiple of three, counting from the right; the input is the reversed digit
list. -/
def commaRev : List Char → Nat → List Char
  | [], _ => []
  | c :: rest, i =>
    (if i ≠ 0 && i % 3 == 0 then [',', c] else [c]) ++ commaRev rest (i + 1)

/-- Digit grouping of a natural number, modelling the grouping performed by
JavaScript `Number.prototype.toLocaleString` (groups of three). -/
def natLocaleString (n : Nat) : String :=
  String.mk (((commaRev (toString n).toList.reverse 0)).reverse)

/-- Models `v.toLocaleString()` on an integer price value. -/
def toLocaleString (v : Int) : String :=
  if v < 0 then "-" ++ natLocaleString v.natAbs else natLocaleString v.natAbs

/-- Specification-side helper: the first present, non-empty string among a
list of optional fields (the spec's "first non-empty wins"). -/
def firstNonEmptyField : List (Option String) → Option String
  | [] => none
  | o :: rest =>
    match o with
    | some s => if s = "" then firstNonEmptyField rest else some s
    | none => firstNonEmptyField rest

/-! ## Data model -/

/-- The intent of a parsed prompt (`types.ts`: `ParsedPrompt.intent`). -/
inductive Intent where
  | compare
  | search
  | recommend
deriving DecidableEq, Repr

/-- Price/brand filters of a parsed prompt; each key may be absent. -/
structure Filters where
  price : Option String := none
  brand : Option String := none
deriving DecidableEq, Repr

/-- A parsed user prompt (`types.ts`: `ParsedPrompt`). -/
structure ParsedPrompt where
  intent : Intent
  products : List String
  filters : Option Filters := none
  attributes : Option (List String) := none
deriving DecidableEq, Repr

/-- The task type attached to a scrape task (`routerAgent.ts`). -/
inductive TaskType where
  | detail
  | listing
deriving DecidableEq, Repr

/-- A scrape task (`types.ts`: `ScrapeTask`). -/
structure ScrapeTask where
  productName : String
  site : String
  taskType : TaskType
  filters : Option Filters := none
  attributes : Option (List String) := none
deriving DecidableEq, Repr

/-- A raw product item as passed around untyped (`any`) in the source: every
field a source or the card reads is optional.  `price_value` is the numeric
price field. -/
structure RawItem where
  title : Option String := none
  name : Option String := none
  url : Option String := none
  link : Option String := none
  productUrl : Option String := none
  price : Option String := none
  price_display : Option String := none
  price_value : Option Int := none
  rating : Option String := none
  image : Option String := none
  description : Option String := none
  specifications : Option String := none
  snippet : Option String := none
  discount : Option String := none
  availability : Option String := none
  brand : Option String := none
  source : Option String := none
deriving DecidableEq, Repr

/-- The provenance tag of a routed result (`useIntentRouter.ts`:
`ProductSource`). -/
inductive ProductSource where
  | scraper
  | gemini
  | google
  | amazon
  | analysis
deriving DecidableEq, Repr

/-- The envelope returned by `routeUserIntent` (`useIntentRouter.ts`:
`RoutedResult`).  Optional boolean fields absent in the source object are
modelled as `false`. -/
structure RoutedResult where
  source : ProductSource
  data : List RawItem
  originalPrompt : String
  fallback : Bool := false
  googleFallback : Bool := false
  amazonReady : Bool := false
deriving DecidableEq, Repr

/-! ## routerAgent.ts: buildScrapeInstructions -/

/-- `routerAgent.ts` `buildScrapeInstructions`: one task per product name;
`taskType` is `detail` for `compare` intent and `listing` otherwise; filters
and attributes are attached only when present (attributes only when
non-empty). -/
def buildScrapeInstructions (parsedPrompt : ParsedPrompt) : List ScrapeTask :=
  parsedPrompt.products.map fun product =>
    { productName := product
      site := "flipkart"
      taskType := if parsedPrompt.intent = Intent.compare then TaskType.detail else TaskType.listing
      filters :=
        match parsedPrompt.filters with
        | some f => some { price := f.price, brand := f.brand }
        | none => none
      attributes :=
        match parsedPrompt.attributes with
        | some attrs => if 0 < attrs.length then some attrs else none
        | none => none }

/-! ## useGoogleSearch.ts: the WebSearch adapter -/

/-- The JSON body of the single POST request `searchProducts` issues. -/
structure SearchRequest where
  query : String
  num_results : Nat
deriving DecidableEq, Repr

/-- The HTTP response `searchProducts` sees: `ok` is the HTTP status flag,
`success` the payload flag, `results` the optional result array
(`result.results || []`). -/
structure GoogleResponse where
  ok : Bool
  success : Bool
  results : Option (List RawItem) := none
deriving DecidableEq, Repr

/-- Outcome of the network call made by `searchProducts`: either the fetch
itself rejects, or a response arrives. -/
inductive GoogleOutcome where
  | networkError
  | response (r : GoogleResponse)
deriving DecidableEq, Repr

/-- The list of search requests one call of `searchProducts` issues: exactly
one, carrying the raw query text and the requested count (default 3, as in
the source signature `numResults: number = 3`). -/
def searchRequests (query : String) (numResults : Nat := 3) : List SearchRequest :=
  [{ query := query, num_results := numResults }]

/-- `useGoogleSearch.ts` `searchProducts`: throws (`Except.error`) on a
network error, a non-ok HTTP status, or a payload with `success` false;
otherwise returns `result.results || []`. -/
def searchProducts (query : String) (o : GoogleOutcome) (numResults : Nat := 3) :
    Except String (List RawItem) :=
  match o with
  | .networkError => .error "Failed to search Google"
  | .response r =>
    if r.ok = false then .error "API error"
    else if r.success = false then .error "Google search operation failed"
    else .ok (r.results.getD [])

/-- Whether an adapter call returned data rather than throwing. -/
def adapterSucceeds (e : Except String (List RawItem)) : Bool :=
  match e with
  | .ok _ => true
  | .error _ => false

/-! ## useGeminiAgent.ts: the AIGenerator adapter -/

/-- Outcome of the network call made by `fetchGeminiSuggestions`: every
throwing path (fetch rejection, non-ok status, unparseable JSON) lands in the
`catch` block and is modelled by `networkError`; an ok JSON payload carries
the optional `suggestions` array (`result.suggestions || []`). -/
inductive GeminiOutcome where
  | networkError
  | response (suggestions : Option (List RawItem))
deriving DecidableEq, Repr

/-- The per-item mapping of `fetchGeminiSuggestions` (transform-and-validate
step): each field defaulted with `||`. -/
def geminiNormalizeItem (item : RawItem) : RawItem :=
  { name := some (orElseStr item.name "Unknown Product")
    url := some (orElseStr item.url "#")
    rating := some (orElseStr item.rating "N/A")
    price := some (orElseStr item.price "N/A")
    image := some (orElseStr item.image "/placeholder-product.jpg")
    description := some (orElseStr item.description "") }

/-- `useGeminiAgent.ts` `getMockProducts`: the fixed two-item fallback list
returned when the API call fails. -/
def getMockProducts (_prompt : String) : List RawItem :=
  [{ name := some "Sample Product 1"
     url := some "https://www.flipkart.com/sample-product-1"
     rating := some "4.5"
     price := some "₹15,999"
     description := some "This is a fallback product suggestion." },
   { name := some "Sample Product 2"
     url := some "https://www.amazon.in/sample-product-2"
     rating := some "4.2"
     price := some "₹12,999"
     description := some "Another fallback product when API fails." }]

/-- `useGeminiAgent.ts` `fetchGeminiSuggestions`: total (its `catch` block
returns the mock list instead of re-throwing); an ok payload is mapped
item-wise. -/
def fetchGeminiSuggestions (prompt : String) (o : GeminiOutcome) : List RawItem :=
  match o with
  | .networkError => getMockProducts prompt
  | .response suggestions => (suggestions.getD []).map geminiNormalizeItem

/-! ## useInstructionAgent.ts (useScraperAgent): the Scraper adapter -/

/-- One element of the nested `result.data` array, as probed by the
extraction chain of `fetchScrapedProducts`. -/
inductive ScrapedTaskResult where
  | withResults (rs : List RawItem)
  | withProducts (ps : List RawItem)
  | asArray (items : List RawItem)
  | asObject (item : RawItem)
  | otherValue
deriving DecidableEq, Repr

/-- The items one `ScrapedTaskResult` contributes, following the
`if/else if` chain over `taskResult` in the source. -/
def ScrapedTaskResult.items : ScrapedTaskResult → List RawItem
  | .withResults rs => rs
  | .withProducts ps => ps
  | .asArray l => l
  | .asObject it => [it]
  | .otherValue => []

/-- The ok JSON payload seen by `fetchScrapedProducts`: the `success` flag
and the three alternative carriers of product data. -/
structure ScraperPayload where
  success : Bool
  results : Option (List RawItem) := none
  data : Option (List ScrapedTaskResult) := none
  products : Option (List RawItem) := none
deriving DecidableEq, Repr

/-- Outcome of the network call made by `fetchScrapedProducts`. -/
inductive ScraperOutcome where
  | networkError
  | payload (r : ScraperPayload)
deriving DecidableEq, Repr

/-- The extraction chain of `fetchScrapedProducts`: prefer `result.results`,
else flatten `result.data` task-by-task, else `result.products`, else the
empty list. -/
def extractScrapedData (r : ScraperPayload) : List RawItem :=
  match r.results with
  | some rs => rs
  | none =>
    match r.data with
    | some ds => ds.foldl (fun acc tr => acc ++ tr.items) []
    | none => r.products.getD []

/-- `useInstructionAgent.ts` `fetchScrapedProducts`: throws on a network
error, non-ok status, or a payload whose `success` flag is false; otherwise
returns the extracted product list.  The task list shapes only the request
body, not the handling of the response. -/
def fetchScrapedProducts (_tasks : List ScrapeTask) (o : ScraperOutcome) :
    Except String (List RawItem) :=
  match o with
  | .networkError => .error "API error"
  | .payload r =>
    if r.success = false then .error "Scraping operation failed"
    else .ok (extractScrapedData r)

/-- The JSON body `fetchScrapedProducts` posts to `/scrape-structured`. -/
structure ScrapeRequestBody where
  intent : String
  products : List String
  max_products_per_query : Nat
  filters : Filters
deriving DecidableEq, Repr

/-- The fold `tasks.reduce((acc, task) => ({...acc, ...(task.filters || {})}), {})`:
keys present in a later task's filters overwrite earlier ones. -/
def mergeTaskFilters (tasks : List ScrapeTask) : Filters :=
  tasks.foldl
    (fun acc t =>
      match t.filters with
      | some f => { price := f.price <|> acc.price, brand := f.brand <|> acc.brand }
      | none => acc)
    {}

/-- The request body built by `fetchScrapedProducts`: the intent is the
hardcoded string `"search"`, the products are the task names, the per-query
cap is 5, and the filters are merged across tasks. -/
def scrapeRequestBody (tasks : List ScrapeTask) : ScrapeRequestBody :=
  { intent := "search"
    products := tasks.map (fun t => t.productName)
    max_products_per_query := 5
    filters := mergeTaskFilters tasks }

/-! ## useIntentRouter.ts (part_006 revision): the resolution pipeline -/

/-- The three adapter outcomes available to one resolution call; fixing them
makes `routeUserIntent` a pure function of its inputs. -/
structure World where
  google : GoogleOutcome
  scraper : ScraperOutcome
  gemini : GeminiOutcome
deriving DecidableEq, Repr

/-- The terminal Gemini fallback of `routeUserIntent` (its result is returned
regardless of quality, flagged `fallback: true`). -/
def geminiFallbackStep (originPrompt : String) (w : World) (tried : List ProductSource) :
    RoutedResult × List ProductSource :=
  ({ source := .gemini
     data := fetchGeminiSuggestions originPrompt w.gemini
     originalPrompt := originPrompt
     fallback := true }, tried ++ [ProductSource.gemini])

/-- The scraper stage of `routeUserIntent`: accepted only when the call
returns without throwing and the list is non-empty (flagged `fallback: true`
because Google Search is primary); otherwise fall through to Gemini. -/
def scraperStep (scrapeTasks : List ScrapeTask) (originPrompt : String) (w : World)
    (tried : List ProductSource) : RoutedResult × List ProductSource :=
  match fetchScrapedProducts scrapeTasks w.scraper with
  | .ok scrapedProducts =>
    if 0 < scrapedProducts.length then
      ({ source := .scraper
         data := scrapedProducts
         originalPrompt := originPrompt
         fallback := true }, tried ++ [ProductSource.scraper])
    else geminiFallbackStep originPrompt w (tried ++ [ProductSource.scraper])
  | .error _ => geminiFallbackStep originPrompt w (tried ++ [ProductSource.scraper])

/-- `useIntentRouter.ts` `routeUserIntent` (the revision that tries Google
Search first), paired with the ordered list of sources it invokes.  With
`forceAI` it goes straight to Gemini; otherwise it tries Google Search, then
the scraper, then Gemini.  A thrown adapter error is caught and treated like
an empty result. -/
def routeUserIntentTrace (parsedPrompt : ParsedPrompt) (originPrompt : String)
    (forceAI : Bool) (w : World) : RoutedResult × List ProductSource :=
  let scrapeTasks := buildScrapeInstructions parsedPrompt
  if forceAI then
    ({ source := .gemini
       data := fetchGeminiSuggestions originPrompt w.gemini
       originalPrompt := originPrompt
       fallback := true }, [ProductSource.gemini])
  else
    match searchProducts originPrompt w.google 5 with
    | .ok googleResults =>
      if 0 < googleResults.length then
        ({ source := .google
           data := googleResults
           originalPrompt := originPrompt }, [ProductSource.google])
      else scraperStep scrapeTasks originPrompt w [ProductSource.google]
    | .error _ => scraperStep scrapeTasks originPrompt w [ProductSource.google]

/-- The envelope `routeUserIntent` resolves to. -/
def routeUserIntent (parsedPrompt : ParsedPrompt) (originPrompt : String)
    (forceAI : Bool) (w : World) : RoutedResult :=
  (routeUserIntentTrace parsedPrompt originPrompt forceAI w).1

/-- The ordered list of sources one resolution call invokes. -/
def sourcesTried (parsedPrompt : ParsedPrompt) (originPrompt : String)
    (forceAI : Bool) (w : World) : List ProductSource :=
  (routeUserIntentTrace parsedPrompt originPrompt forceAI w).2

/-- The quality gate at the Google Search stage: the call returned without
throwing and with at least one result. -/
def googleAccepted (originPrompt : String) (w : World) : Bool :=
  match searchProducts originPrompt w.google 5 with
  | .ok rs => decide (0 < rs.length)
  | .error _ => false

/-- The quality gate at the scraper stage. -/
def scraperAccepted (parsedPrompt : ParsedPrompt) (w : World) : Bool :=
  match fetchScrapedProducts (buildScrapeInstructions parsedPrompt) w.scraper with
  | .ok ps => decide (0 < ps.length)
  | .error _ => false

/-- The pipeline's primary (first-tried, highest-priority) source in this
revision: Google Search. -/
def primarySource : ProductSource := ProductSource.google

/-! ## product-card.tsx: display normalization and the price heuristic -/

/-- `product-card.tsx`: `const name = (product.name || product.title || "").toLowerCase()`. -/
def cardNameKey (product : RawItem) : String :=
  (orElseStr product.name (orElseStr product.title "")).toLower

/-- `product-card.tsx`: `const specs = (product.specifications || product.description || "").toLowerCase()`. -/
def cardSpecsKey (product : RawItem) : String :=
  (orElseStr product.specifications (orElseStr product.description "")).toLower

/-- The keyword table of `estimatePrice` (lines after the real-price checks):
a display-string price range guessed from name/specs keywords. -/
def heuristicPrice (name specs : String) : String :=
  if strIncludes name "iphone" || strIncludes name "apple" then
    if strIncludes name "15" || strIncludes name "pro" then "₹70,000 - ₹1,50,000"
    else if strIncludes name "14" || strIncludes name "13" then "₹50,000 - ₹80,000"
    else "₹40,000 - ₹70,000"
  else if strIncludes name "samsung" then
    if strIncludes name "s24" || strIncludes name "s23" || strIncludes name "ultra" then
      "₹45,000 - ₹1,20,000"
    else if strIncludes name "galaxy" && strIncludes name "pro" then "₹35,000 - ₹60,000"
    else if strIncludes name "galaxy" then "₹15,000 - ₹50,000"
    else "₹20,000 - ₹50,000"
  else if strIncludes name "oneplus" then
    if strIncludes name "pro" || strIncludes name "11" || strIncludes name "12" then
      "₹35,000 - ₹70,000"
    else "₹25,000 - ₹45,000"
  else if strIncludes name "google pixel" then
    if strIncludes name "pro" || strIncludes name "8" || strIncludes name "7" then
      "₹40,000 - ₹80,000"
    else "₹30,000 - ₹50,000"
  else if strIncludes name "xiaomi" || strIncludes name "redmi" || strIncludes name "poco" then
    if strIncludes name "pro" || strIncludes name "ultra" then "₹20,000 - ₹45,000"
    else "₹10,000 - ₹30,000"
  else if strIncludes name "oppo" then
    if strIncludes name "pro" || strIncludes name "reno" then "₹25,000 - ₹50,000"
    else "₹15,000 - ₹35,000"
  else if strIncludes name "vivo" then
    if strIncludes name "pro" || strIncludes name "v29" || strIncludes name "v30" then
      "₹25,000 - ₹50,000"
    else "₹15,000 - ₹35,000"
  else if strIncludes name "nothing" then
    if strIncludes name "phone (2)" || strIncludes name "pro" then "₹35,000 - ₹55,000"
    else "₹25,000 - ₹40,000"
  else if strIncludes name "realme" then
    if strIncludes name "pro" || strIncludes name "gt" then "₹20,000 - ₹40,000"
    else "₹10,000 - ₹25,000"
  else if strIncludes name "macbook" || strIncludes name "mac book" then
    if strIncludes name "pro" || strIncludes name "max" then "₹1,50,000 - ₹3,50,000"
    else "₹80,000 - ₹1,50,000"
  else if strIncludes name "laptop" || strIncludes name "notebook" then
    if strIncludes specs "i7" || strIncludes specs "i9" || strIncludes specs "rtx" then
      "₹60,000 - ₹1,50,000"
    else if strIncludes specs "i5" || strIncludes specs "ryzen 7" then "₹40,000 - ₹80,000"
    else "₹25,000 - ₹60,000"
  else if strIncludes name "airpods" || strIncludes name "air pods" then
    if strIncludes name "pro" || strIncludes name "max" then "₹20,000 - ₹60,000"
    else "₹10,000 - ₹25,000"
  else if strIncludes name "headphones" || strIncludes name "earbuds" then
    if strIncludes name "sony" || strIncludes name "bose" then "₹15,000 - ₹40,000"
    else "₹2,000 - ₹20,000"
  else if strIncludes name "mobile" || strIncludes name "phone" || strIncludes name "smartphone" then
    "₹15,000 - ₹50,000"
  else "Price varies by retailer"

/-- Truthiness of the card's real-price-string check:
`product.price && product.price !== "Price not available"`. -/
def hasRealPriceText (product : RawItem) : Bool :=
  orElseStr product.price "" != "" && orElseStr product.price "" != "Price not available"

/-- Truthiness of the card's `product.price_display` check. -/
def hasDisplayPrice (product : RawItem) : Bool :=
  orElseStr product.price_display "" != ""

/-- `product-card.tsx` `estimatePrice`: returns a real price string when one
is present (`price`, then `price_display`, then a positive `price_value`
formatted with `₹` and locale grouping) and otherwise a display-only price
range guessed from keywords in the product name/specs. -/
def estimatePrice (product : RawItem) : String :=
  if hasRealPriceText product then orElseStr product.price ""
  else if hasDisplayPrice product then orElseStr product.price_display ""
  else
    match product.price_value with
    | some v => if 0 < v then "₹" ++ toLocaleString v else heuristicPrice (cardNameKey product) (cardSpecsKey product)
    | none => heuristicPrice (cardNameKey product) (cardSpecsKey product)

/-- The display strings `ProductCard` derives from one raw product. -/
structure CardView where
  productName : String
  productPrice : String
  productRating : String
  productImage : String
  productUrl : String
  productDescription : String
deriving DecidableEq, Repr

/-- The field-resolution chain of `ProductCard` (product-card.tsx lines
144-152): each display field is a `||`-chain over the raw item's fields with
a documented default. -/
def normalizeCard (product : RawItem) : CardView :=
  { productName := orElseStr product.name (orElseStr product.title "Unknown Product")
    productPrice := estimatePrice product
    productRating := orElseStr product.rating "N/A"
    productImage := orElseStr product.image "/placeholder-product.jpg"
    productUrl := orElseStr product.link (orElseStr product.url (orElseStr product.productUrl "#"))
    productDescription :=
      orElseStr product.description (orElseStr product.specifications (orElseStr product.snippet "")) }

/-! ## ProductChart: the numeric price chart data -/

/-- The typed product consumed by `ProductChart`. -/
structure ChartSpecs where
  ram_gb : Int := 0
  storage_gb : Int := 0
  battery_mah : Int := 0
deriving DecidableEq, Repr

/-- `ProductChart`'s `Product` shape: a name, a numeric `price_value`, a
display string, and the normalized specs. -/
structure ChartProduct where
  name : String
  price_value : Int
  price_display : String
  specs : ChartSpecs := {}
deriving DecidableEq, Repr

/-- One bar of the price chart. -/
structure PriceEntry where
  name : String
  fullName : String
  price : Int
  priceDisplay : String
deriving DecidableEq, Repr

/-- The price-chart pipeline of `ProductChart`: keep the products whose
`price_value` is positive and chart `price_value` itself as the numeric
price, with the name truncated for display. -/
def priceChartData (data : List ChartProduct) : List PriceEntry :=
  (data.filter fun p => decide (0 < p.price_value)).map fun p =>
    { name := if 20 < p.name.length then (p.name.take 20) ++ "..." else p.name
      fullName := p.name
      price := p.price_value
      priceDisplay := p.price_display }

/-! ## Helper lemmas -/

/-- Case analysis of one non-forced resolution: exactly one of the three
sources supplies the envelope, in the fixed order Google Search, scraper,
Gemini. -/
theorem routeTrace_cases (p : ParsedPrompt) (o : String) (w : World) :
    (googleAccepted o w = true ∧
      ∃ rs, searchProducts o w.google 5 = .ok rs ∧
        routeUserIntentTrace p o false w =
          ({ source := .google, data := rs, originalPrompt := o }, [ProductSource.google]))
    ∨ (googleAccepted o w = false ∧ scraperAccepted p w = true ∧
      ∃ ps, fetchScrapedProducts (buildScrapeInstructions p) w.scraper = .ok ps ∧
        routeUserIntentTrace p o false w =
          ({ source := .scraper, data := ps, originalPrompt := o, fallback := true },
            [ProductSource.google, ProductSource.scraper]))
    ∨ (googleAccepted o w = false ∧ scraperAccepted p w = false ∧
      routeUserIntentTrace p o false w =
        ({ source := .gemini, data := fetchGeminiSuggestions o w.gemini, originalPrompt := o,
           fallback := true },
          [ProductSource.google, ProductSource.scraper, ProductSource.gemini])) := by
  cases hg : searchProducts o w.google 5 with
  | ok rs =>
    by_cases h1 : 0 < rs.length
    · exact Or.inl ⟨by simp [googleAccepted, hg, h1], rs, rfl,
        by simp [routeUserIntentTrace, hg, h1]⟩
    · cases hs : fetchScrapedProducts (buildScrapeInstructions p) w.scraper with
      | ok ps =>
        by_cases h2 : 0 < ps.length
        · exact Or.inr (Or.inl ⟨by simp [googleAccepted, hg, h1],
            by simp [scraperAccepted, hs, h2], ps, rfl,
            by simp [routeUserIntentTrace, scraperStep, hg, hs, h1, h2]⟩)
        · exact Or.inr (Or.inr ⟨by simp [googleAccepted, hg, h1],
            by simp [scraperAccepted, hs, h2],
            by simp [routeUserIntentTrace, scraperStep, geminiFallbackStep, hg, hs, h1, h2]⟩)
      | error e =>
        exact Or.inr (Or.inr ⟨by simp [googleAccepted, hg, h1],
          by simp [scraperAccepted, hs],
          by simp [routeUserIntentTrace, scraperStep, geminiFallbackStep, hg, hs, h1]⟩)
  | error e =>
    cases hs : fetchScrapedProducts (buildScrapeInstructions p) w.scraper with
    | ok ps =>
      by_cases h2 : 0 < ps.length
      · exact Or.inr (Or.inl ⟨by simp [googleAccepted, hg],
          by simp [scraperAccepted, hs, h2], ps, rfl,
          by simp [routeUserIntentTrace, scraperStep, hg, hs, h2]⟩)
      · exact Or.inr (Or.inr ⟨by simp [googleAccepted, hg],
          by simp [scraperAccepted, hs, h2],
          by simp [routeUserIntentTrace, scraperStep, geminiFallbackStep, hg, hs, h2]⟩)
    | error e2 =>
      exact Or.inr (Or.inr ⟨by simp [googleAccepted, hg],
        by simp [scraperAccepted, hs],
        by simp [routeUserIntentTrace, scraperStep, geminiFallbackStep, hg, hs]⟩)

/-- A forced resolution goes straight to Gemini. -/
theorem routeTrace_forceAI (p : ParsedPrompt) (o : String) (w : World) :
    routeUserIntentTrace p o true w =
      ({ source := .gemini, data := fetchGeminiSuggestions o w.gemini, originalPrompt := o,
         fallback := true }, [ProductSource.gemini]) := by
  simp [routeUserIntentTrace]

/-! ## Claim theorems -/

/-- Claim C2: for every resolution without the forceAI override, the pipeline
attempts the sources in the fixed priority order WebSearch (Google), then
Scraper, then AIGenerator (Gemini); each later source is invoked exactly when
every earlier source failed or produced an empty result, and no other
invocation order ever occurs. -/
theorem claim2_fixed_priority_order (p : ParsedPrompt) (o : String) (w : World) :
    sourcesTried p o false w =
      if googleAccepted o w then [ProductSource.google]
      else if scraperAccepted p w then [ProductSource.google, ProductSource.scraper]
      else [ProductSource.google, ProductSource.scraper, ProductSource.gemini] := by
  rcases routeTrace_cases p o w with ⟨hga, rs, hg, heq⟩ | ⟨hga, hsa, ps, hs, heq⟩ | ⟨hga, hsa, heq⟩
  · simp [sourcesTried, heq, hga]
  · simp [sourcesTried, heq, hga, hsa]
  · simp [sourcesTried, heq, hga, hsa]

/-- Claim C3: with forceAI set, the resolution invokes only the Gemini
adapter (the trace of invoked sources is exactly `[gemini]`, whatever the
other adapters would have returned), and the envelope carries
`source = gemini` and `fallback = true`. -/
theorem claim3_forceAI_bypass (p : ParsedPrompt) (o : String) (w : World) :
    routeUserIntent p o true w =
      { source := .gemini, data := fetchGeminiSuggestions o w.gemini, originalPrompt := o,
        fallback := true }
    ∧ sourcesTried p o true w = [ProductSource.gemini] :=
  ⟨by simp [routeUserIntent, routeTrace_forceAI], by simp [sourcesTried, routeTrace_forceAI]⟩

/-- Claim C4: every envelope the pipeline returns satisfies the invariant
that a true fallback flag implies the provenance is not the pipeline's
primary (first-tried, highest-priority) source, which in this revision is
Google Search. -/
theorem claim4_fallback_not_primary (p : ParsedPrompt) (o : String) (f : Bool) (w : World)
    (h : (routeUserIntent p o f w).fallback = true) :
    (routeUserIntent p o f w).source ≠ primarySource := by
  cases f
  · rcases routeTrace_cases p o w with ⟨_, rs, _, heq⟩ | ⟨_, _, ps, _, heq⟩ | ⟨_, _, heq⟩ <;>
      simp [routeUserIntent, heq, primarySource] at h ⊢
  · simp [routeUserIntent, routeTrace_forceAI, primarySource]

/-- Witness for C4 at a concrete forced resolution whose fallback flag is true. -/
theorem claim4_fallback_not_primary_witness :
    (routeUserIntent { intent := Intent.search, products := ["iphone 14"] } "best phones" true
        { google := .networkError, scraper := .networkError, gemini := .networkError }).source
      ≠ primarySource :=
  claim4_fallback_not_primary _ _ _ _ (by decide)

/-- Claim C1 counterexample: at a concrete resolution where all three sources
fail (every adapter call hits a network error), the envelope's product list
is the two-item Gemini mock list, not the empty list the claim requires; its
fallback flag is true. -/
theorem claim1_total_failure_counterexample :
    (routeUserIntent { intent := Intent.search, products := ["iphone 14"] } "best phones" false
        { google := .networkError, scraper := .networkError, gemini := .networkError }).data.length
        = 2
    ∧ (routeUserIntent { intent := Intent.search, products := ["iphone 14"] } "best phones" false
        { google := .networkError, scraper := .networkError, gemini := .networkError }).data ≠ []
    ∧ (routeUserIntent { intent := Intent.search, products := ["iphone 14"] } "best phones" false
        { google := .networkError, scraper := .networkError, gemini := .networkError }).fallback
        = true := by
  refine ⟨by decide, by decide, by decide⟩

/-- Claim C1 (amended): when Google Search and the scraper both fail or come
back empty, `routeUserIntent` returns without raising, with
`source = gemini` and `fallback = true` and with whatever the total Gemini
adapter produced; in particular, when the Gemini call itself fails the
product list is the fixed two-item mock list rather than the empty list. -/
theorem claim1_amended_total_failure (p : ParsedPrompt) (o : String) (w : World)
    (hg : googleAccepted o w = false) (hs : scraperAccepted p w = false) :
    routeUserIntent p o false w =
      { source := .gemini, data := fetchGeminiSuggestions o w.gemini, originalPrompt := o,
        fallback := true }
    ∧ (w.gemini = GeminiOutcome.networkError →
        (routeUserIntent p o false w).data = getMockProducts o
        ∧ (routeUserIntent p o false w).data.length = 2) := by
  rcases routeTrace_cases p o w with ⟨hga, _, _, _⟩ | ⟨_, hsa, _, _, _⟩ | ⟨_, _, heq⟩
  · simp [hga] at hg
  · simp [hsa] at hs
  · refine ⟨by simp [routeUserIntent, heq], fun hge => ?_⟩
    refine ⟨by simp [routeUserIntent, heq, fetchGeminiSuggestions, hge], ?_⟩
    simp [routeUserIntent, heq, fetchGeminiSuggestions, hge, getMockProducts]

/-- Witness for C1 (amended) at a concrete all-failing world. -/
theorem claim1_amended_total_failure_witness :
    (routeUserIntent { intent := Intent.search, products := ["iphone 14"] } "best phones" false
        { google := .networkError, scraper := .networkError, gemini := .networkError }).data
      = getMockProducts "best phones" :=
  ((claim1_amended_total_failure _ _ _ (by decide) (by decide)).2 (by rfl)).1

/-- Claim C5: if the scraper returns exactly two valid items, then whether
Google Search returned zero results or threw, the envelope is
`source = scraper`, `fallback = true`, with exactly those two products
(an empty WebSearch result falls through exactly like a transport failure). -/
theorem claim5_empty_search_falls_through (p : ParsedPrompt) (o : String) (w : World)
    (i1 i2 : RawItem)
    (hs : fetchScrapedProducts (buildScrapeInstructions p) w.scraper = .ok [i1, i2]) :
    (searchProducts o w.google 5 = .ok [] →
      routeUserIntent p o false w =
        { source := .scraper, data := [i1, i2], originalPrompt := o, fallback := true }
      ∧ (routeUserIntent p o false w).data.length = 2)
    ∧ (∀ msg, searchProducts o w.google 5 = .error msg →
      routeUserIntent p o false w =
        { source := .scraper, data := [i1, i2], originalPrompt := o, fallback := true }
      ∧ (routeUserIntent p o false w).data.length = 2) := by
  constructor
  · intro hg
    refine ⟨?_, ?_⟩ <;> simp [routeUserIntent, routeUserIntentTrace, hg, hs, scraperStep]
  · intro msg hg
    refine ⟨?_, ?_⟩ <;> simp [routeUserIntent, routeUserIntentTrace, hg, hs, scraperStep]

/-- Witness for C5: the concrete scenario of the spec (empty Google result,
two scraped items). -/
theorem claim5_empty_search_falls_through_witness :
    routeUserIntent { intent := Intent.compare, products := ["iPhone 14", "Poco X5"] }
        "compare iphone 14 and poco x5" false
        { google := .response { ok := true, success := true, results := some [] }
          scraper := .payload
            { success := true
              results := some [{ title := some "iPhone 14", price := some "₹59,999" },
                               { title := some "Poco X5 5G", price := some "₹16,999" }] }
          gemini := .networkError }
      = { source := .scraper,
          data := [{ title := some "iPhone 14", price := some "₹59,999" },
                   { title := some "Poco X5 5G", price := some "₹16,999" }],
          originalPrompt := "compare iphone 14 and poco x5", fallback := true } :=
  ((claim5_empty_search_falls_through _ _ _ _ _ (by rfl)).1 (by rfl)).1

/-- Unfolding step for the spec-side field resolution: resolving a list of
optional fields with a default is the `||`-chain of its members. -/
theorem firstNonEmptyField_cons_getD (o : Option String) (rest : List (Option String))
    (d : String) :
    (firstNonEmptyField (o :: rest)).getD d = orElseStr o ((firstNonEmptyField rest).getD d) := by
  cases o with
  | none => simp [firstNonEmptyField, orElseStr]
  | some s => by_cases h : s = "" <;> simp [firstNonEmptyField, orElseStr, h]

/-- Claim C6 counterexample: on a raw item carrying both a non-empty `title`
and a non-empty `name`, the card resolves the display name to the `name`
field, not to the `title` field the claim puts first. -/
theorem claim6_name_order_counterexample :
    (normalizeCard { title := some "Title Product", name := some "Name Product" }).productName
      = "Name Product"
    ∧ (normalizeCard { title := some "Title Product", name := some "Name Product" }).productName
      ≠ "Title Product" :=
  ⟨by rfl, by decide⟩

/-- Claim C6 (amended): normalization is total (a `CardView` is produced for
every raw item, one missing every field included), with the display name the
first non-empty of \x7bname, title\x7d (name first) and otherwise
"Unknown Product", the detail URL the first non-empty of
\x7blink, url, productUrl\x7d and otherwise the sentinel "#" (which the card
treats as an absent URL), and the description the first non-empty of
\x7bdescription, specifications, snippet\x7d and otherwise the empty
string. -/
theorem claim6_amended_field_resolution (it : RawItem) :
    (normalizeCard it).productName
      = (firstNonEmptyField [it.name, it.title]).getD "Unknown Product"
    ∧ (normalizeCard it).productUrl
      = (firstNonEmptyField [it.link, it.url, it.productUrl]).getD "#"
    ∧ (normalizeCard it).productDescription
      = (firstNonEmptyField [it.description, it.specifications, it.snippet]).getD "" := by
  refine ⟨?_, ?_, ?_⟩
  · rw [firstNonEmptyField_cons_getD, firstNonEmptyField_cons_getD]
    simp [normalizeCard, firstNonEmptyField]
  · rw [firstNonEmptyField_cons_getD, firstNonEmptyField_cons_getD,
      firstNonEmptyField_cons_getD]
    simp [normalizeCard, firstNonEmptyField]
  · rw [firstNonEmptyField_cons_getD, firstNonEmptyField_cons_getD,
      firstNonEmptyField_cons_getD]
    simp [normalizeCard, firstNonEmptyField]

/-- Claim C7: the numeric price is taken from `price_value` only when present
and strictly positive — `estimatePrice` then renders exactly that value —
and otherwise the keyword heuristic contributes a display string only: the
chart's numeric prices are exactly the raw positive `price_value`s and are
invariant under any renaming of the products, so no name-derived guess is
ever merged into a numeric price. -/
theorem claim7_price_value_provenance :
    (∀ (it : RawItem) (v : Int),
      hasRealPriceText it = false → hasDisplayPrice it = false →
      it.price_value = some v → 0 < v →
      estimatePrice it = "₹" ++ toLocaleString v)
    ∧ (∀ it : RawItem,
      hasRealPriceText it = false → hasDisplayPrice it = false →
      (it.price_value = none ∨ ∃ v, it.price_value = some v ∧ v ≤ 0) →
      estimatePrice it = heuristicPrice (cardNameKey it) (cardSpecsKey it))
    ∧ (∀ data : List ChartProduct,
      (priceChartData data).map PriceEntry.price
        = (data.filter fun q => decide (0 < q.price_value)).map ChartProduct.price_value)
    ∧ (∀ (data : List ChartProduct) (f : String → String),
      (priceChartData (data.map fun q => { q with name := f q.name })).map PriceEntry.price
        = (priceChartData data).map PriceEntry.price) := by
  refine ⟨?_, ?_, ?_, ?_⟩
  · intro it v h1 h2 hv hpos
    simp [estimatePrice, h1, h2, hv, hpos]
  · intro it h1 h2 h3
    rcases h3 with hnone | ⟨v, hv, hle⟩
    · simp [estimatePrice, h1, h2, hnone]
    · have hnp : ¬ (0 < v) := by omega
      simp [estimatePrice, h1, h2, hv, hnp]
  · intro data
    simp [priceChartData, List.map_map, Function.comp]
  · intro data f
    induction data with
    | nil => rfl
    | cons q rest ih =>
      by_cases h : 0 < q.price_value <;>
        simp [priceChartData, List.filter_cons, h] at ih ⊢ <;> simpa using ih

/-- Witness for C7: a raw item with no price strings and a positive numeric
price renders exactly that value. -/
theorem claim7_price_value_provenance_witness :
    estimatePrice { price_value := some 59999 } = "₹" ++ toLocaleString 59999 :=
  claim7_price_value_provenance.1 _ 59999 (by decide) (by decide) (by rfl) (by decide)

/-- Claim C8 counterexample: a fetch whose response is HTTP-ok and reports
success but contains zero results still succeeds — `searchProducts` returns
the empty product list instead of reporting failure, contradicting the
claimed "at least one result" condition. -/
theorem claim8_empty_success_counterexample :
    searchProducts "best phones"
        (.response { ok := true, success := true, results := some [] }) 3 = .ok []
    ∧ adapterSucceeds (searchProducts "best phones"
        (.response { ok := true, success := true, results := some [] }) 3) = true :=
  ⟨rfl, rfl⟩

/-- Claim C8 (amended): the WebSearch adapter issues exactly one request per
fetch, carrying the raw query text and a requested count defaulting to 3;
it returns a product list (possibly empty) if and only if the response is
HTTP-ok and reports success, and it throws on HTTP error, network failure or
an unsuccessful payload rather than returning data.  (The non-empty check is
applied by the caller, not the adapter.) -/
theorem claim8_amended_search_adapter (q : String) (n : Nat) (o : GoogleOutcome) :
    searchRequests q n = [{ query := q, num_results := n }]
    ∧ searchRequests q = [{ query := q, num_results := 3 }]
    ∧ (adapterSucceeds (searchProducts q o n) = true ↔
        ∃ r, o = .response r ∧ r.ok = true ∧ r.success = true)
    ∧ (∀ r, o = .response r → r.ok = true → r.success = true →
        searchProducts q o n = .ok (r.results.getD [])) := by
  refine ⟨rfl, rfl, ?_, ?_⟩
  · cases o with
    | networkError => simp [searchProducts, adapterSucceeds]
    | response r =>
      cases hok : r.ok <;> cases hsc : r.success <;>
        simp [searchProducts, adapterSucceeds, hok, hsc]
  · intro r ho hok hsc
    subst ho
    simp [searchProducts, hok, hsc]

/-- Witness for C8 (amended): a concrete ok-and-successful response comes
back as its (here empty) result list. -/
theorem claim8_amended_search_adapter_witness :
    searchProducts "best phones"
        (.response { ok := true, success := true, results := some [] }) 3
      = .ok ((some ([] : List RawItem)).getD []) :=
  (claim8_amended_search_adapter "best phones" 3 _).2.2.2 _ (by rfl) (by rfl) (by rfl)

/-- Claim C9: every scrape task built for a parsed prompt carries
`taskType = detail` exactly when the intent is `compare` and `listing` for
`search`/`recommend`, and this intent-specific override never changes the
source fallback order: with the adapter outcomes fixed, the trace of invoked
sources is independent of the parsed prompt (hence of its intent and of the
task shapes built from it). -/
theorem claim9_taskType_by_intent :
    (∀ (p : ParsedPrompt) (t : ScrapeTask), t ∈ buildScrapeInstructions p →
      t.taskType = if p.intent = Intent.compare then TaskType.detail else TaskType.listing)
    ∧ (∀ (p1 p2 : ParsedPrompt) (o : String) (f : Bool) (w : World),
      sourcesTried p1 o f w = sourcesTried p2 o f w) := by
  constructor
  · intro p t ht
    simp only [buildScrapeInstructions, List.mem_map] at ht
    obtain ⟨a, ha, ht⟩ := ht
    subst ht
    rfl
  · intro p1 p2 o f w
    have hfetch : fetchScrapedProducts (buildScrapeInstructions p1) w.scraper
        = fetchScrapedProducts (buildScrapeInstructions p2) w.scraper := by
      cases hsc : w.scraper <;> rfl
    have hstep : ∀ tried, scraperStep (buildScrapeInstructions p1) o w tried
        = scraperStep (buildScrapeInstructions p2) o w tried := by
      intro tried
      unfold scraperStep
      rw [hfetch]
    cases f
    · simp only [sourcesTried, routeUserIntentTrace]
      cases hg : searchProducts o w.google 5 with
      | ok rs => by_cases h : 0 < rs.length <;> simp [hg, h, hstep]
      | error e => simp [hg, hstep]
    · rfl

/-- Witness for C9 at a concrete compare-intent prompt: the built task
carries `taskType = detail`. -/
theorem claim9_taskType_by_intent_witness :
    ({ productName := "iPhone 14", site := "flipkart", taskType := TaskType.detail } :
        ScrapeTask).taskType
      = if ({ intent := Intent.compare, products := ["iPhone 14"] } : ParsedPrompt).intent
          = Intent.compare then TaskType.detail else TaskType.listing :=
  claim9_taskType_by_intent.1 { intent := Intent.compare, products := ["iPhone 14"] } _ (by decide)

/-- Claim C10 counterexample: an HTTP-ok Gemini response whose `suggestions`
field is missing makes `fetchGeminiSuggestions` return the empty list — not
the two-item mock list — and the pipeline then returns an empty envelope on
its normal (non-catch) AI path. -/
theorem claim10_ok_empty_counterexample :
    fetchGeminiSuggestions "tablets" (GeminiOutcome.response none) = []
    ∧ fetchGeminiSuggestions "tablets" (GeminiOutcome.response none) ≠ getMockProducts "tablets"
    ∧ (routeUserIntent { intent := Intent.search, products := ["tablets"] } "tablets" false
        { google := .networkError, scraper := .networkError, gemini := .response none }).data
      = [] :=
  ⟨rfl, by decide, by rfl⟩

/-- Claim C10 (amended): `fetchGeminiSuggestions` never rejects; every
throwing path (HTTP failure, non-ok response, unparseable body) returns the
fixed two-item mock list; the result is empty exactly when the call
succeeded with a missing or empty `suggestions` array — so the AI-path
envelope can be empty in that one case. -/
theorem claim10_amended_gemini_total (prompt : String) (o : GeminiOutcome) :
    (o = GeminiOutcome.networkError →
      fetchGeminiSuggestions prompt o = getMockProducts prompt
      ∧ (fetchGeminiSuggestions prompt o).length = 2)
    ∧ (fetchGeminiSuggestions prompt o = [] ↔
        (o = GeminiOutcome.response none ∨ o = GeminiOutcome.response (some []))) := by
  constructor
  · intro h
    subst h
    exact ⟨rfl, rfl⟩
  · cases o with
    | networkError => simp [fetchGeminiSuggestions, getMockProducts]
    | response s =>
      cases s with
      | none => simp [fetchGeminiSuggestions]
      | some l =>
        cases l with
        | nil => simp [fetchGeminiSuggestions]
        | cons a rest => simp [fetchGeminiSuggestions]

/-- Witness for C10 (amended): a failing Gemini call returns the mock list. -/
theorem claim10_amended_gemini_total_witness :
    fetchGeminiSuggestions "best phones" GeminiOutcome.networkError
      = getMockProducts "best phones" :=
  ((claim10_amended_gemini_total "best phones" _).1 (by rfl)).1
